import Mathlib

/-!
Shallow embedding of the device-presence and identity-tracking core of
`libremidi_flutter` (C++ sources: `macos/Classes/libremidi_flutter.cpp`,
`src/libremidi/backends/android/observer.hpp`, `src/android_helpers.cpp`,
`src/libremidi_flutter.h`).

Strings are modelled as lists of byte values (`List Nat`), matching the
byte-wise treatment in the C++ code (`std::string` iteration in
`fnv1a_hash`, `strncpy` in `safe_strcpy`).  Machine arithmetic on
`uint64_t` is modelled as `Nat` with explicit reduction modulo `2 ^ 64`.
-/

/-- Byte string: the model of a C++ `std::string` viewed as its bytes. -/
abbrev ByteStr := List Nat

/-- Model of a `libremidi::input_port` / `libremidi::output_port` value as
populated by the backends: the six name fields, the transport type tag and
the two opaque native handles (`port`, `client`).  `port`/`client` are the
native handles that are NOT identity-relevant. -/
structure Port where
  port_name : ByteStr
  device_name : ByteStr
  display_name : ByteStr
  manufacturer : ByteStr
  product : ByteStr
  serial : ByteStr
  type : Nat
  port : Nat
  client : Nat
  deriving DecidableEq, Repr

namespace transport_type

/-- Value of `libremidi::transport_type::software` (see the constants in
`libremidi_flutter.h`, which mirror the libremidi enum). -/
def software : Nat := 2

/-- Value of `libremidi::transport_type::loopback`. -/
def loopback : Nat := 4

/-- Value of `libremidi::transport_type::hardware`. -/
def hardware : Nat := 8

/-- Value of `libremidi::transport_type::usb`. -/
def usb : Nat := 16

/-- Value of `libremidi::transport_type::bluetooth`. -/
def bluetooth : Nat := 32

/-- Value of `libremidi::transport_type::pci`. -/
def pci : Nat := 64

/-- Value of `libremidi::transport_type::network`. -/
def network : Nat := 128

end transport_type

/-- Model of `static_cast<uint64_t>(c)` applied to one `char` of a
`std::string`.  On the target platforms `char` is signed, so bytes at or
above `0x80` sign-extend to the top of the 64-bit range. -/
def charToU64 (c : Nat) : Nat :=
  if c < 128 then c else 2 ^ 64 - 256 + c % 256

/-- One loop iteration of `fnv1a_hash` in
`macos/Classes/libremidi_flutter.cpp`: `hash ^= (uint64_t)c; hash *= FNV_PRIME;`
with `uint64_t` overflow modelled by reduction modulo `2 ^ 64`. -/
def fnv1a_step (hash c : Nat) : Nat :=
  ((hash ^^^ charToU64 c) * 1099511628211) % 2 ^ 64

/-- Model of `fnv1a_hash` (`macos/Classes/libremidi_flutter.cpp`): FNV-1a
64-bit hash of the byte string, starting from the FNV offset basis. -/
def fnv1a_hash (s : ByteStr) : Nat :=
  s.foldl fnv1a_step 14695981039346656037

/-- Byte value of the separator character used by `port_key`. -/
def keySep : Nat := 124

/-- Model of `port_key` (identical in `macos/Classes/libremidi_flutter.cpp`
and `android/observer.hpp`):
`port.port_name + "|" + port.manufacturer + "|" + port.product + "|" + port.serial`. -/
def port_key (p : Port) : ByteStr :=
  p.port_name ++ keySep :: (p.manufacturer ++ keySep :: (p.product ++ keySep :: p.serial))

/-- The stable identifier assigned in `fill_port_info`:
`info->stable_id = fnv1a_hash(port_key(port))`. -/
def stable_id (p : Port) : Nat :=
  fnv1a_hash (port_key p)

/-- Model of `observer::diff_added` (`android/observer.hpp`): collect the
keys of the cache, keep the ports of `current` whose key is absent (in
`current` order), and replace the cache by `current`.  Returns
`(added, new cache)`. -/
def diff_added (current cache : List Port) : List Port × List Port :=
  let cached_keys := cache.map port_key
  ((current.filter fun p => !(cached_keys.contains (port_key p))), current)

/-- Model of `observer::diff_removed` (`android/observer.hpp`): collect the
keys of `current`, keep the ports of the cache whose key is absent (in
cache order), and replace the cache by `current`.  Returns
`(removed, new cache)`. -/
def diff_removed (current cache : List Port) : List Port × List Port :=
  let current_keys := current.map port_key
  ((cache.filter fun p => !(current_keys.contains (port_key p))), current)

/-- Hotplug event as delivered to the user-supplied callbacks of the
Android observer configuration (`input_added`, `input_removed`,
`output_added`, `output_removed`), carrying the port it concerns. -/
inductive Event where
  | input_added (p : Port)
  | input_removed (p : Port)
  | output_added (p : Port)
  | output_removed (p : Port)
  deriving DecidableEq, Repr

/-- Which of the four optional callbacks of
`libremidi::observer_configuration` are set (non-null). -/
structure AndroidConfig where
  input_added : Bool
  input_removed : Bool
  output_added : Bool
  output_removed : Bool
  deriving DecidableEq, Repr

/-- Mutable state of the Android `observer` relevant to hotplug handling:
its configuration and the two port caches (`cached_inputs`,
`cached_outputs`). -/
structure AndroidObserver where
  cfg : AndroidConfig
  cached_inputs : List Port
  cached_outputs : List Port
  deriving DecidableEq, Repr

/-- Model of `observer::on_device_added` (`android/observer.hpp`).  The
backend enumeration results are passed in as `enumIn`/`enumOut` (the values
`get_input_ports()` / `get_output_ports()` return at that moment; a failed
enumeration returns the empty list).  For each direction whose added
callback is set, the diff against the cache is computed, the cache is
replaced by the fresh enumeration, and the callback fires once per added
port.  Input callbacks fire before output callbacks.  Returns the updated
observer and the fired events in order. -/
def on_device_added (enumIn enumOut : List Port) (st : AndroidObserver) :
    AndroidObserver × List Event :=
  let resIn :=
    if st.cfg.input_added then
      let d := diff_added enumIn st.cached_inputs
      (d.2, d.1.map Event.input_added)
    else (st.cached_inputs, [])
  let resOut :=
    if st.cfg.output_added then
      let d := diff_added enumOut st.cached_outputs
      (d.2, d.1.map Event.output_added)
    else (st.cached_outputs, [])
  ({ st with cached_inputs := resIn.1, cached_outputs := resOut.1 },
   resIn.2 ++ resOut.2)

/-- Model of `observer::on_device_removed` (`android/observer.hpp`),
symmetric to `on_device_added` with `diff_removed` and the removed
callbacks. -/
def on_device_removed (enumIn enumOut : List Port) (st : AndroidObserver) :
    AndroidObserver × List Event :=
  let resIn :=
    if st.cfg.input_removed then
      let d := diff_removed enumIn st.cached_inputs
      (d.2, d.1.map Event.input_removed)
    else (st.cached_inputs, [])
  let resOut :=
    if st.cfg.output_removed then
      let d := diff_removed enumOut st.cached_outputs
      (d.2, d.1.map Event.output_removed)
    else (st.cached_outputs, [])
  ({ st with cached_inputs := resIn.1, cached_outputs := resOut.1 },
   resIn.2 ++ resOut.2)

/-- Hotplug event codes of the C shim (`LRM_EVENT_*` in
`macos/Classes/libremidi_flutter.cpp`). -/
def LRM_EVENT_INPUT_ADDED : Nat := 0

/-- Event code `LRM_EVENT_INPUT_REMOVED`. -/
def LRM_EVENT_INPUT_REMOVED : Nat := 1

/-- Event code `LRM_EVENT_OUTPUT_ADDED`. -/
def LRM_EVENT_OUTPUT_ADDED : Nat := 2

/-- Event code `LRM_EVENT_OUTPUT_REMOVED`. -/
def LRM_EVENT_OUTPUT_REMOVED : Nat := 3

/-- State of the C-shim observer `LrmObserver`
(`macos/Classes/libremidi_flutter.cpp`): the two cached port lists and
whether the hotplug callback pointer is set. -/
structure LrmObserver where
  input_ports : List Port
  output_ports : List Port
  hotplug_callback : Bool
  deriving DecidableEq, Repr

/-- Model of `LrmObserver::refreshInternal`: re-enumerate both directions
and store the results.  The backend results are the parameters. -/
def refreshInternal (enumIn enumOut : List Port) (st : LrmObserver) : LrmObserver :=
  { st with input_ports := enumIn, output_ports := enumOut }

/-- Model of `LrmObserver::notifyHotplug`: invoke the hotplug callback with
the event code when the callback is set.  Returns the list of callback
invocations (event codes). -/
def notifyHotplug (st : LrmObserver) (eventType : Nat) : List Nat :=
  if st.hotplug_callback then [eventType] else []

/-- Model of the body of `~LrmObserver` that concerns callback delivery:
`hotplug_callback = nullptr`. -/
def LrmObserver_teardown (st : LrmObserver) : LrmObserver :=
  { st with hotplug_callback := false }

/-- CoreMIDI object type of the added/removed child, as inspected by
`handleMIDINotification`. -/
inductive MIDIObjectType where
  | source
  | destination
  | other
  deriving DecidableEq, Repr

/-- CoreMIDI notification message kinds handled by
`handleMIDINotification`. -/
inductive MIDINotification where
  | objectAdded (childType : MIDIObjectType)
  | objectRemoved (childType : MIDIObjectType)
  | setupChanged
  | other
  deriving DecidableEq, Repr

/-- Model of `handleMIDINotification` (`macos/Classes/libremidi_flutter.cpp`).
On object-added/removed the ports are refreshed and one event fires for the
matching direction; on `kMIDIMsgSetupChanged` the ports are refreshed and
`LRM_EVENT_INPUT_ADDED` and `LRM_EVENT_OUTPUT_ADDED` are both notified.
Returns the updated observer and the callback invocations in order. -/
def handleMIDINotification (enumIn enumOut : List Port) (st : LrmObserver)
    (msg : MIDINotification) : LrmObserver × List Nat :=
  match msg with
  | .objectAdded childType =>
    let st := refreshInternal enumIn enumOut st
    match childType with
    | .source => (st, notifyHotplug st LRM_EVENT_INPUT_ADDED)
    | .destination => (st, notifyHotplug st LRM_EVENT_OUTPUT_ADDED)
    | .other => (st, [])
  | .objectRemoved childType =>
    let st := refreshInternal enumIn enumOut st
    match childType with
    | .source => (st, notifyHotplug st LRM_EVENT_INPUT_REMOVED)
    | .destination => (st, notifyHotplug st LRM_EVENT_OUTPUT_REMOVED)
    | .other => (st, [])
  | .setupChanged =>
    let st := refreshInternal enumIn enumOut st
    (st, notifyHotplug st LRM_EVENT_INPUT_ADDED ++ notifyHotplug st LRM_EVENT_OUTPUT_ADDED)
  | .other => (st, [])

/-- Process-wide hotplug dispatch state of `android_helpers.cpp`: the
globals `g_active_hotplug_observer` (a raw pointer, `0` modelling
`nullptr`) and the two callback pointers (modelled by whether they are
set). -/
structure HotplugGate where
  g_active_hotplug_observer : Nat
  g_on_device_added : Bool
  g_on_device_removed : Bool
  deriving DecidableEq, Repr

/-- Model of `set_hotplug_observer` (`android_helpers.cpp`): store the
observer pointer and both callbacks. -/
def set_hotplug_observer (_g : HotplugGate) (observer : Nat)
    (on_added on_removed : Bool) : HotplugGate :=
  { g_active_hotplug_observer := observer
    g_on_device_added := on_added
    g_on_device_removed := on_removed }

/-- Model of `clear_hotplug_observer` (`android_helpers.cpp`): null all
three globals. -/
def clear_hotplug_observer (_g : HotplugGate) : HotplugGate :=
  { g_active_hotplug_observer := 0
    g_on_device_added := false
    g_on_device_removed := false }

/-- Model of the JNI entry point `onDeviceAddedNative`
(`android_helpers.cpp`): the handler is invoked exactly when the incoming
observer pointer is non-null, the added callback is set, and the pointer
equals the currently registered observer.  Returns whether the handler was
invoked. -/
def onDeviceAddedNative (g : HotplugGate) (observer_ptr : Nat) : Bool :=
  observer_ptr != 0 && g.g_on_device_added
    && (observer_ptr == g.g_active_hotplug_observer)

/-- Model of the JNI entry point `onDeviceRemovedNative`
(`android_helpers.cpp`), symmetric to `onDeviceAddedNative`. -/
def onDeviceRemovedNative (g : HotplugGate) (observer_ptr : Nat) : Bool :=
  observer_ptr != 0 && g.g_on_device_removed
    && (observer_ptr == g.g_active_hotplug_observer)

/-- Heap of live `LrmObserver` allocations, as the list of live handle
addresses (a handle is a raw pointer; `0` models `nullptr`). -/
abbrev ObserverHeap := List Nat

/-- Model of `lrm_observer_free` (`macos/Classes/libremidi_flutter.cpp`),
whose body is `delete observer` with C++ `delete` semantics: deleting a
null pointer is a no-op, deleting a live allocation removes it from the
heap, and deleting a pointer that is not a live allocation (a double
delete) is undefined behaviour, modelled as `none`. -/
def lrm_observer_free (heap : ObserverHeap) (observer : Nat) : Option ObserverHeap :=
  if observer = 0 then some heap
  else if observer ∈ heap then some (heap.erase observer)
  else none

/-- Error code `LRM_OK` (`libremidi_flutter.h`). -/
def LRM_OK : Int := 0

/-- Error code `LRM_ERR_INVALID` (`libremidi_flutter.h`). -/
def LRM_ERR_INVALID : Int := -1

/-- Error code `LRM_ERR_NOT_FOUND` (`libremidi_flutter.h`). -/
def LRM_ERR_NOT_FOUND : Int := -2

/-- Model of `safe_strcpy` (`macos/Classes/libremidi_flutter.cpp`) for a
destination buffer of `dest_size` bytes: `strncpy` copies at most
`dest_size - 1` bytes of the source and stops at a NUL byte, and the last
buffer byte is forced to NUL; the stored string is therefore the longest
NUL-free prefix of the source truncated to `dest_size - 1` bytes. -/
def safe_strcpy (dest_size : Nat) (src : ByteStr) : ByteStr :=
  (src.takeWhile fun c => c != 0).take (dest_size - 1)

/-- Model of the fixed-layout record `LrmPortInfo` (`libremidi_flutter.h`)
as filled for the caller. -/
structure LrmPortInfo where
  stable_id : Nat
  port_id : Nat
  client_handle : Nat
  index : Int
  display_name : ByteStr
  port_name : ByteStr
  device_name : ByteStr
  manufacturer : ByteStr
  product : ByteStr
  serial : ByteStr
  transport_type : Nat
  is_input : Bool
  is_virtual : Bool
  deriving DecidableEq, Repr

/-- Model of `fill_port_info` (`macos/Classes/libremidi_flutter.cpp`):
copies the handles, computes `stable_id = fnv1a_hash(port_key(port))`,
truncates the name fields into their fixed buffers, narrows the transport
type to `uint8_t`, and sets
`is_virtual = (port.type == software || port.type == loopback)`. -/
def fill_port_info (p : Port) (index : Int) (is_input : Bool) : LrmPortInfo :=
  { stable_id := fnv1a_hash (port_key p)
    port_id := p.port
    client_handle := p.client
    index := index
    display_name := safe_strcpy 256 p.display_name
    port_name := safe_strcpy 256 p.port_name
    device_name := safe_strcpy 256 p.device_name
    manufacturer := safe_strcpy 256 p.manufacturer
    product := safe_strcpy 256 p.product
    serial := safe_strcpy 128 p.serial
    transport_type := p.type % 256
    is_input := is_input
    is_virtual := (p.type == transport_type.software
                   || p.type == transport_type.loopback) }

/-- Heap of live `LrmObserver` objects with their contents: live handle
addresses paired with the observer state stored there. -/
abbrev ObserverStateHeap := List (Nat × LrmObserver)

/-- Model of `lrm_observer_get_input` (`macos/Classes/libremidi_flutter.cpp`)
over an explicit heap of live observers.  `observer` is the raw pointer
argument (`0` for `nullptr`) and `info_null` whether the output pointer is
null.  The null checks happen first and yield `LRM_ERR_INVALID`; then the
pointer is dereferenced: if it is not a live allocation the read of freed
state is undefined behaviour, modelled as `none`.  Otherwise an
out-of-range index yields `LRM_ERR_NOT_FOUND` and an in-range index yields
`LRM_OK` with the filled `LrmPortInfo`. -/
def lrm_observer_get_input (heap : ObserverStateHeap) (observer : Nat)
    (info_null : Bool) (index : Int) : Option (Int × Option LrmPortInfo) :=
  if observer = 0 || info_null then some (LRM_ERR_INVALID, none)
  else
    match heap.lookup observer with
    | none => none
    | some st =>
      if index < 0 || (st.input_ports.length : Int) ≤ index then
        some (LRM_ERR_NOT_FOUND, none)
      else
        match st.input_ports.get? index.toNat with
        | some p => some (LRM_OK, some (fill_port_info p index true))
        | none => none

/-- Model of `lrm_observer_get_output` (`macos/Classes/libremidi_flutter.cpp`),
symmetric to `lrm_observer_get_input` over the output port list with
`is_input = false`. -/
def lrm_observer_get_output (heap : ObserverStateHeap) (observer : Nat)
    (info_null : Bool) (index : Int) : Option (Int × Option LrmPortInfo) :=
  if observer = 0 || info_null then some (LRM_ERR_INVALID, none)
  else
    match heap.lookup observer with
    | none => none
    | some st =>
      if index < 0 || (st.output_ports.length : Int) ≤ index then
        some (LRM_ERR_NOT_FOUND, none)
      else
        match st.output_ports.get? index.toNat with
        | some p => some (LRM_OK, some (fill_port_info p index false))
        | none => none

/-- Sample hardware USB input port named `a` from manufacturer `m`. -/
def portA : Port :=
  { port_name := [97], device_name := [], display_name := [100]
    manufacturer := [109], product := [], serial := []
    type := 24, port := 1, client := 10 }

/-- The same physical device as `portA` after re-enumeration: identical
identifying fields, regenerated native handles and display name. -/
def portA2 : Port :=
  { port_name := [97], device_name := [], display_name := [120]
    manufacturer := [109], product := [], serial := []
    type := 24, port := 7, client := 99 }

/-- Sample hardware USB port named `b`. -/
def portB : Port :=
  { port_name := [98], device_name := [], display_name := []
    manufacturer := [], product := [], serial := []
    type := 24, port := 2, client := 10 }

/-- Sample software (virtual) port named `c`. -/
def portC : Port :=
  { port_name := [99], device_name := [], display_name := []
    manufacturer := [], product := [], serial := []
    type := 2, port := 3, client := 10 }

/-- C1: two Port Descriptors whose identifying fields `(port_name,
manufacturer, product, serial)` are pairwise equal receive the same
`stable_id`, whatever their native handles (`port`, `client`) or any other
field: the id is a function of those four fields only. -/
theorem C1_stable_id_deterministic (a b : Port)
    (h1 : a.port_name = b.port_name) (h2 : a.manufacturer = b.manufacturer)
    (h3 : a.product = b.product) (h4 : a.serial = b.serial) :
    stable_id a = stable_id b := by
  simp [stable_id, port_key, h1, h2, h3, h4]

/-- Witness for C1: `portA` and `portA2` share the identifying fields but
differ in both native handles, and get the same `stable_id`. -/
theorem C1_stable_id_witness :
    (portA.port ≠ portA2.port ∧ portA.client ≠ portA2.client)
    ∧ stable_id portA = stable_id portA2 :=
  ⟨by decide, C1_stable_id_deterministic portA portA2 rfl rfl rfl rfl⟩

/-- C2: for any snapshots `old` (the cache) and `fresh` (the new
enumeration), `diff_added` returns exactly the ports of `fresh` whose key
is absent from the keys of `old`, in the order of `fresh`, and
`diff_removed` returns exactly the ports of `old` whose key is absent from
the keys of `fresh`, in the order of `old`; in particular for
`S1 = [portA, portB]` and `S2 = [portB, portC]` the diff is
`(added = [portC], removed = [portA])`. -/
theorem C2_diff_exact (old fresh : List Port) :
    (∀ p : Port, p ∈ (diff_added fresh old).1
        ↔ p ∈ fresh ∧ ∀ q ∈ old, port_key q ≠ port_key p)
    ∧ (diff_added fresh old).1.Sublist fresh
    ∧ (∀ p : Port, p ∈ (diff_removed fresh old).1
        ↔ p ∈ old ∧ ∀ q ∈ fresh, port_key q ≠ port_key p)
    ∧ (diff_removed fresh old).1.Sublist old
    ∧ (diff_added [portB, portC] [portA, portB]).1 = [portC]
    ∧ (diff_removed [portB, portC] [portA, portB]).1 = [portA] := by
  refine ⟨?_, ?_, ?_, ?_, by decide, by decide⟩
  · intro p
    simp [diff_added, List.mem_filter, List.mem_map]
  · exact List.filter_sublist _
  · intro p
    simp [diff_removed, List.mem_filter, List.mem_map]
  · exact List.filter_sublist _

/-- Witness for C2: the concrete diff instance, obtained by applying the
theorem: `portC` is added when going from `[portA, portB]` to
`[portB, portC]`, and `portA` is not removed-listed as added. -/
theorem C2_diff_witness :
    portC ∈ (diff_added [portB, portC] [portA, portB]).1
    ∧ portA ∈ (diff_removed [portB, portC] [portA, portB]).1 :=
  ⟨((C2_diff_exact [portA, portB] [portB, portC]).1 portC).mpr
      ⟨by decide, by decide⟩,
   ((C2_diff_exact [portA, portB] [portB, portC]).2.2.1 portA).mpr
      ⟨by decide, by decide⟩⟩

/-- Two port lists related pointwise by equality of the four identifying
fields have equal key lists. -/
lemma map_port_key_eq_of_forall₂ (S T : List Port)
    (h : List.Forall₂ (fun p q => p.port_name = q.port_name
        ∧ p.manufacturer = q.manufacturer ∧ p.product = q.product
        ∧ p.serial = q.serial) S T) :
    S.map port_key = T.map port_key := by
  induction h with
  | nil => rfl
  | cons hpq _ ih =>
    obtain ⟨h1, h2, h3, h4⟩ := hpq
    simp only [List.map_cons, ih, List.cons.injEq, and_true]
    simp [port_key, h1, h2, h3, h4]

/-- C3: when the fresh enumeration `T` consists pointwise of descriptors
with the same identifying fields as the cached snapshot `S` (native
handles and all other fields free to have been regenerated), the diff in
both directions is empty: no added and no removed port. -/
theorem C3_no_spurious_churn (S T : List Port)
    (h : List.Forall₂ (fun p q => p.port_name = q.port_name
        ∧ p.manufacturer = q.manufacturer ∧ p.product = q.product
        ∧ p.serial = q.serial) S T) :
    (diff_added T S).1 = [] ∧ (diff_removed T S).1 = [] := by
  have hkeys : S.map port_key = T.map port_key :=
    map_port_key_eq_of_forall₂ S T h
  constructor
  · simp only [diff_added, hkeys]
    refine List.filter_eq_nil_iff.mpr ?_
    intro p hp
    simp [List.mem_map]
    exact ⟨p, hp, rfl⟩
  · simp only [diff_removed]
    refine List.filter_eq_nil_iff.mpr ?_
    intro p hp
    have : port_key p ∈ T.map port_key := by
      rw [← hkeys]
      exact List.mem_map_of_mem _ hp
    simp only [List.mem_map] at this
    obtain ⟨q, hq, hqk⟩ := this
    simp [List.mem_map]
    exact ⟨q, hq, hqk⟩

/-- Witness for C3: the snapshot `[portA]` re-enumerated as `[portA2]`
(same identity, regenerated handles) produces an empty diff in both
directions. -/
theorem C3_no_spurious_churn_witness :
    (diff_added [portA2] [portA]).1 = [] ∧ (diff_removed [portA2] [portA]).1 = [] :=
  C3_no_spurious_churn [portA] [portA2]
    (List.Forall₂.cons ⟨rfl, rfl, rfl, rfl⟩ List.Forall₂.nil)

/-- Observer state used for the C4 counterexample: callback installed,
inputs `[portA]`, outputs `[portB]` cached. -/
def stC4 : LrmObserver :=
  { input_ports := [portA], output_ports := [portB], hotplug_callback := true }

/-- Counterexample for C4: on the macOS path, a `kMIDIMsgSetupChanged`
signal reaching an observer whose inputs are unchanged (`[portA]`) while
the outputs gained one device (`[portB]` to `[portB, portC]`) fires an
input-added callback and an output-added callback, not merely the single
output-added callback the claim requires. -/
theorem C4_setupChanged_counterexample :
    (handleMIDINotification [portA] [portB, portC] stC4 .setupChanged).2
      = [LRM_EVENT_INPUT_ADDED, LRM_EVENT_OUTPUT_ADDED]
    ∧ (handleMIDINotification [portA] [portB, portC] stC4 .setupChanged).2
      ≠ [LRM_EVENT_OUTPUT_ADDED] := by
  constructor
  · rfl
  · decide

/-- C4 amended: on the Android observer, an ambiguous device-added signal
re-enumerates both directions and fires callbacks only for genuine
differences (if inputs are unchanged and outputs gained exactly the port
`c`, exactly one output-added callback fires and no input callback);
whereas on the macOS observer the ambiguous setup-changed signal
re-enumerates both directions but then unconditionally notifies one
input-added and one output-added event. -/
theorem C4_ambiguous_signal_handling :
    (∀ (enumIn enumOut : List Port) (st : AndroidObserver) (c : Port),
      st.cfg.input_added = true → st.cfg.output_added = true →
      (diff_added enumIn st.cached_inputs).1 = [] →
      (diff_added enumOut st.cached_outputs).1 = [c] →
      (on_device_added enumIn enumOut st).2 = [Event.output_added c])
    ∧ (∀ (enumIn enumOut : List Port) (st : LrmObserver),
      st.hotplug_callback = true →
      (handleMIDINotification enumIn enumOut st .setupChanged).2
        = [LRM_EVENT_INPUT_ADDED, LRM_EVENT_OUTPUT_ADDED]) := by
  constructor
  · intro enumIn enumOut st c hin hout hdin hdout
    simp [on_device_added, hin, hout, hdin, hdout]
  · intro enumIn enumOut st hcb
    simp [handleMIDINotification, refreshInternal, notifyHotplug, hcb]

/-- Witness for C4 amended: with cached inputs `[portA]` and outputs
`[portB]`, enumerating `[portA2]` (same input device, regenerated handle)
and `[portB, portC]` fires exactly one `output_added` for `portC`. -/
theorem C4_ambiguous_signal_witness :
    (on_device_added [portA2] [portB, portC]
        { cfg := ⟨true, true, true, true⟩
          cached_inputs := [portA], cached_outputs := [portB] }).2
      = [Event.output_added portC]
    ∧ (handleMIDINotification [portA2] [portB, portC] stC4 .setupChanged).2
      = [LRM_EVENT_INPUT_ADDED, LRM_EVENT_OUTPUT_ADDED] :=
  ⟨C4_ambiguous_signal_handling.1 [portA2] [portB, portC] _ portC rfl rfl
      (by decide) (by decide),
   C4_ambiguous_signal_handling.2 [portA2] [portB, portC] stC4 rfl⟩

/-- C5: after disposal, backend signals produce zero callback invocations.
The observer destructor runs `clear_hotplug_observer` before releasing
backend resources, and a cleared gate dispatches nothing for any pointer;
more generally the JNI dispatch path never invokes a handler for a pointer
that is not the currently registered observer; and on the macOS side the
destructor nulls the callback pointer, after which `notifyHotplug` fires
nothing. -/
theorem C5_post_disposal_silence :
    (∀ (g : HotplugGate) (ptr : Nat),
      onDeviceAddedNative (clear_hotplug_observer g) ptr = false
      ∧ onDeviceRemovedNative (clear_hotplug_observer g) ptr = false)
    ∧ (∀ (g : HotplugGate) (ptr : Nat),
      ptr ≠ g.g_active_hotplug_observer →
      onDeviceAddedNative g ptr = false ∧ onDeviceRemovedNative g ptr = false)
    ∧ (∀ (st : LrmObserver) (e : Nat),
      notifyHotplug (LrmObserver_teardown st) e = []) := by
  refine ⟨?_, ?_, ?_⟩
  · intro g ptr
    constructor <;>
      simp [onDeviceAddedNative, onDeviceRemovedNative, clear_hotplug_observer]
  · intro g ptr hne
    constructor <;>
      simp [onDeviceAddedNative, onDeviceRemovedNative, hne]
  · intro st e
    simp [notifyHotplug, LrmObserver_teardown]

/-- Witness for C5: a gate registered to observer `5` with both callbacks
set dispatches nothing after being cleared, dispatches nothing for the
stale pointer `3`, and a torn-down macOS observer notifies nothing. -/
theorem C5_post_disposal_witness :
    onDeviceAddedNative (clear_hotplug_observer ⟨5, true, true⟩) 5 = false
    ∧ onDeviceRemovedNative ⟨5, true, true⟩ 3 = false
    ∧ notifyHotplug (LrmObserver_teardown stC4) LRM_EVENT_INPUT_ADDED = [] :=
  ⟨(C5_post_disposal_silence.1 ⟨5, true, true⟩ 5).1,
   (C5_post_disposal_silence.2.1 ⟨5, true, true⟩ 3 (by decide)).2,
   C5_post_disposal_silence.2.2 stC4 LRM_EVENT_INPUT_ADDED⟩

/-- Counterexample for C6: on the heap holding the single live observer at
address `1`, the first `lrm_observer_free` deallocates it, and a second
`lrm_observer_free` of the same handle is a double delete — undefined
behaviour (`none`) — not a no-op. -/
theorem C6_double_free_counterexample :
    lrm_observer_free [1] 1 = some []
    ∧ lrm_observer_free [] 1 = none
    ∧ (none : Option ObserverHeap) ≠ some [] := by
  refine ⟨by decide, by decide, by decide⟩

/-- C6 amended: disposal of a null observer handle is a no-op (and hence
idempotent); disposing a live non-null handle deallocates it, and a second
disposal of the same handle is a double delete, i.e. undefined behaviour,
not a no-op. -/
theorem C6_free_semantics (heap : ObserverHeap) (a : Nat)
    (hnd : heap.Nodup) (ha : a ≠ 0) (hmem : a ∈ heap) :
    lrm_observer_free heap 0 = some heap
    ∧ lrm_observer_free heap a = some (heap.erase a)
    ∧ lrm_observer_free (heap.erase a) a = none := by
  refine ⟨rfl, ?_, ?_⟩
  · simp [lrm_observer_free, ha, hmem]
  · have hnotmem : a ∉ heap.erase a := hnd.not_mem_erase
    simp [lrm_observer_free, ha, hnotmem]

/-- Witness for C6 amended: concrete heap `[1]`, handle `1`. -/
theorem C6_free_semantics_witness :
    lrm_observer_free [1] 0 = some [1]
    ∧ lrm_observer_free [1] 1 = some ([1].erase 1)
    ∧ lrm_observer_free ([1].erase 1) 1 = none :=
  C6_free_semantics [1] 1 (by decide) (by decide) (by decide)

/-- Android observer state used for the C7 counterexample: all callbacks
set, one cached input port, no cached outputs. -/
def stC7 : AndroidObserver :=
  { cfg := ⟨true, true, true, true⟩
    cached_inputs := [portA], cached_outputs := [] }

/-- Counterexample for C7: when enumeration fails (`get_input_ports` /
`get_output_ports` return the empty list), the device-removed path fires a
removed callback for the still-cached port `portA` and replaces the cache
by the empty snapshot — not the "no change this cycle" the claim
requires. -/
theorem C7_failed_enumerate_counterexample :
    (on_device_removed [] [] stC7).2 = [Event.input_removed portA]
    ∧ (on_device_removed [] [] stC7).2 ≠ []
    ∧ (on_device_removed [] [] stC7).1.cached_inputs = []
    ∧ (on_device_removed [] [] stC7).1.cached_inputs ≠ stC7.cached_inputs := by
  refine ⟨by decide, by decide, by decide, by decide⟩

/-- C7 amended: a failed enumeration never throws across the observer
boundary — it yields the empty port list — and in the device-added path no
callback fires; but in both paths the Snapshot Cache is replaced by the
empty snapshot, and in the device-removed path every cached port is
reported as removed (inputs before outputs, in cache order). -/
theorem C7_failed_enumerate_behavior (st : AndroidObserver)
    (h1 : st.cfg.input_added = true) (h2 : st.cfg.output_added = true)
    (h3 : st.cfg.input_removed = true) (h4 : st.cfg.output_removed = true) :
    ((on_device_added [] [] st).2 = []
     ∧ (on_device_added [] [] st).1.cached_inputs = []
     ∧ (on_device_added [] [] st).1.cached_outputs = [])
    ∧ ((on_device_removed [] [] st).2
        = st.cached_inputs.map Event.input_removed
          ++ st.cached_outputs.map Event.output_removed
     ∧ (on_device_removed [] [] st).1.cached_inputs = []
     ∧ (on_device_removed [] [] st).1.cached_outputs = []) := by
  constructor
  · refine ⟨?_, ?_, ?_⟩ <;> simp [on_device_added, diff_added, h1, h2]
  · refine ⟨?_, ?_, ?_⟩ <;>
      simp [on_device_removed, diff_removed, h3, h4, List.filter_true]

/-- Witness for C7 amended: applied to `stC7`, the failed re-enumeration
reports `portA` as removed and clears the cache. -/
theorem C7_failed_enumerate_witness :
    (on_device_removed [] [] stC7).2
      = stC7.cached_inputs.map Event.input_removed
        ++ stC7.cached_outputs.map Event.output_removed
    ∧ (on_device_removed [] [] stC7).1.cached_inputs = [] :=
  ⟨(C7_failed_enumerate_behavior stC7 rfl rfl rfl rfl).2.1,
   (C7_failed_enumerate_behavior stC7 rfl rfl rfl rfl).2.2.1⟩

/-- Counterexample for C8: with no live observer at address `1` (the
observer was disposed), `lrm_observer_get_input` with a non-null pointer
dereferences freed state — undefined behaviour (`none`) — instead of
reporting `LRM_ERR_INVALID` as the claim requires. -/
theorem C8_disposed_handle_counterexample :
    lrm_observer_get_input ([] : ObserverStateHeap) 1 false 0 = none
    ∧ (none : Option (Int × Option LrmPortInfo))
      ≠ some (LRM_ERR_INVALID, none) := by
  refine ⟨rfl, by decide⟩

/-- C8 amended: a null observer pointer or null output struct reports
`LRM_ERR_INVALID`; for a live observer, an index that is negative or at
least the port count of the requested direction reports
`LRM_ERR_NOT_FOUND`, and an in-range index reports `LRM_OK` with the
descriptor filled from the current snapshot; but a disposed (freed,
non-null) observer handle is dereferenced — undefined behaviour — rather
than being reported as an invalid handle. -/
theorem C8_get_trichotomy (heap : ObserverStateHeap) (observer : Nat)
    (info_null : Bool) (index : Int) (st : LrmObserver) :
    (observer = 0 ∨ info_null = true →
      lrm_observer_get_input heap observer info_null index
        = some (LRM_ERR_INVALID, none)
      ∧ lrm_observer_get_output heap observer info_null index
        = some (LRM_ERR_INVALID, none))
    ∧ (observer ≠ 0 → info_null = false → heap.lookup observer = some st →
      ((index < 0 ∨ (st.input_ports.length : Int) ≤ index →
        lrm_observer_get_input heap observer info_null index
          = some (LRM_ERR_NOT_FOUND, none))
      ∧ (∀ p : Port, 0 ≤ index → st.input_ports.get? index.toNat = some p →
        lrm_observer_get_input heap observer info_null index
          = some (LRM_OK, some (fill_port_info p index true)))
      ∧ (index < 0 ∨ (st.output_ports.length : Int) ≤ index →
        lrm_observer_get_output heap observer info_null index
          = some (LRM_ERR_NOT_FOUND, none))
      ∧ (∀ p : Port, 0 ≤ index → st.output_ports.get? index.toNat = some p →
        lrm_observer_get_output heap observer info_null index
          = some (LRM_OK, some (fill_port_info p index false))))) := by
  constructor
  · intro h
    constructor <;>
      · rcases h with h | h <;>
          simp [lrm_observer_get_input, lrm_observer_get_output, h]
  · intro hobs hinfo hlk
    have hguard : ¬(observer = 0 || info_null) = true := by
      simp [hobs, hinfo]
    refine ⟨?_, ?_, ?_, ?_⟩
    · intro hrange
      have : (index < 0 || (st.input_ports.length : Int) ≤ index) = true := by
        rcases hrange with h | h <;> simp [h]
      simp [lrm_observer_get_input, hguard, hlk, this]
    · intro p hpos hget
      have hlt : index.toNat < st.input_ports.length :=
        List.get?_eq_some.mp hget |>.1
      have hrange : ¬(index < 0 || (st.input_ports.length : Int) ≤ index) = true := by
        simp only [Bool.or_eq_true, decide_eq_true_eq, not_or]
        omega
      have hget2 : st.input_ports[index.toNat]? = some p := by
        simpa using hget
      simp [lrm_observer_get_input, hguard, hlk, hrange, hget2]
    · intro hrange
      have : (index < 0 || (st.output_ports.length : Int) ≤ index) = true := by
        rcases hrange with h | h <;> simp [h]
      simp [lrm_observer_get_output, hguard, hlk, this]
    · intro p hpos hget
      have hlt : index.toNat < st.output_ports.length :=
        List.get?_eq_some.mp hget |>.1
      have hrange : ¬(index < 0 || (st.output_ports.length : Int) ≤ index) = true := by
        simp only [Bool.or_eq_true, decide_eq_true_eq, not_or]
        omega
      have hget2 : st.output_ports[index.toNat]? = some p := by
        simpa using hget
      simp [lrm_observer_get_output, hguard, hlk, hrange, hget2]

/-- Live observer used for the C8 witness: one input port, one output
port. -/
def stC8 : LrmObserver :=
  { input_ports := [portA], output_ports := [portB], hotplug_callback := false }

/-- Witness for C8 amended: on the heap holding `stC8` at address `1`, a
null pointer reports `LRM_ERR_INVALID`, index `5` reports
`LRM_ERR_NOT_FOUND`, and index `0` reports `LRM_OK` with the filled
descriptor. -/
theorem C8_get_trichotomy_witness :
    lrm_observer_get_input [(1, stC8)] 0 false 0 = some (LRM_ERR_INVALID, none)
    ∧ lrm_observer_get_input [(1, stC8)] 1 false 5 = some (LRM_ERR_NOT_FOUND, none)
    ∧ lrm_observer_get_input [(1, stC8)] 1 false 0
      = some (LRM_OK, some (fill_port_info portA 0 true))
    ∧ lrm_observer_get_output [(1, stC8)] 1 false 0
      = some (LRM_OK, some (fill_port_info portB 0 false)) :=
  ⟨((C8_get_trichotomy [(1, stC8)] 0 false 0 stC8).1 (Or.inl rfl)).1,
   (((C8_get_trichotomy [(1, stC8)] 1 false 5 stC8).2 (by decide) rfl rfl).1
      (Or.inr (by decide))),
   (((C8_get_trichotomy [(1, stC8)] 1 false 0 stC8).2 (by decide) rfl rfl).2.1
      portA (by decide) rfl),
   (((C8_get_trichotomy [(1, stC8)] 1 false 0 stC8).2 (by decide) rfl rfl).2.2.2
      portB (by decide) rfl)⟩

/-- Splitting a byte string at a separator byte that occurs in neither
left part is unambiguous. -/
lemma append_sep_inj (x₁ : ByteStr) :
    ∀ (x₂ r₁ r₂ : ByteStr), keySep ∉ x₁ → keySep ∉ x₂ →
    x₁ ++ keySep :: r₁ = x₂ ++ keySep :: r₂ → x₁ = x₂ ∧ r₁ = r₂ := by
  induction x₁ with
  | nil =>
    intro x₂ r₁ r₂ _ h₂ heq
    cases x₂ with
    | nil => simpa using heq
    | cons b t₂ =>
      simp only [List.nil_append, List.cons_append, List.cons.injEq] at heq
      exact absurd (heq.1 ▸ List.mem_cons_self b t₂) (heq.1 ▸ h₂)
  | cons a t₁ ih =>
    intro x₂ r₁ r₂ h₁ h₂ heq
    cases x₂ with
    | nil =>
      simp only [List.cons_append, List.nil_append, List.cons.injEq] at heq
      exact absurd (heq.1 ▸ List.mem_cons_self a t₁) (fun hmem => h₁ (heq.1 ▸ hmem))
    | cons b t₂ =>
      simp only [List.cons_append, List.cons.injEq] at heq
      have ht := ih t₂ r₁ r₂ (fun hm => h₁ (List.mem_cons_of_mem a hm))
        (fun hm => h₂ (List.mem_cons_of_mem b hm)) heq.2
      exact ⟨by rw [heq.1, ht.1], ht.2⟩

/-- C9: when the separator byte occurs in none of the identifying fields
of either descriptor, `port_key` is injective on the identifying tuples:
descriptors with different `(port_name, manufacturer, product, serial)`
tuples produce different concatenated keys. -/
theorem C9_port_key_injective (a b : Port)
    (ha1 : keySep ∉ a.port_name) (ha2 : keySep ∉ a.manufacturer)
    (ha3 : keySep ∉ a.product)
    (hb1 : keySep ∉ b.port_name) (hb2 : keySep ∉ b.manufacturer)
    (hb3 : keySep ∉ b.product)
    (hne : (a.port_name, a.manufacturer, a.product, a.serial)
         ≠ (b.port_name, b.manufacturer, b.product, b.serial)) :
    port_key a ≠ port_key b := by
  intro heq
  apply hne
  unfold port_key at heq
  obtain ⟨e1, heq⟩ := append_sep_inj a.port_name b.port_name _ _ ha1 hb1 heq
  obtain ⟨e2, heq⟩ := append_sep_inj a.manufacturer b.manufacturer _ _ ha2 hb2 heq
  obtain ⟨e3, e4⟩ := append_sep_inj a.product b.product _ _ ha3 hb3 heq
  rw [e1, e2, e3, e4]

/-- Ports used for the C9 witness: field contents `ab---` versus
`a-b--`, whose naive concatenations without a separator would coincide. -/
def portK1 : Port :=
  { port_name := [97, 98], device_name := [], display_name := []
    manufacturer := [], product := [], serial := []
    type := 0, port := 0, client := 0 }

/-- Second C9 witness port: `port_name = "a"`, `manufacturer = "b"`. -/
def portK2 : Port :=
  { port_name := [97], device_name := [], display_name := []
    manufacturer := [98], product := [], serial := []
    type := 0, port := 0, client := 0 }

/-- Witness for C9: `portK1` and `portK2` have different identifying
tuples (though the same field bytes in sequence) and separator-free
fields, so their keys differ. -/
theorem C9_port_key_witness : port_key portK1 ≠ port_key portK2 :=
  C9_port_key_injective portK1 portK2 (by decide) (by decide) (by decide)
    (by decide) (by decide) (by decide) (by decide)

/-- C10: the serialized descriptor's `is_virtual` flag is true exactly
when the port's transport type is `software` or `loopback`; any other
transport classification (hardware with or without usb/bluetooth/pci/
network qualifiers, or unknown) yields `is_virtual = false`. -/
theorem C10_is_virtual_iff (p : Port) (index : Int) (is_input : Bool) :
    ((fill_port_info p index is_input).is_virtual = true
      ↔ p.type = transport_type.software ∨ p.type = transport_type.loopback)
    ∧ ((fill_port_info p index is_input).is_virtual = false
      ↔ p.type ≠ transport_type.software ∧ p.type ≠ transport_type.loopback) := by
  constructor
  · simp [fill_port_info]
  · simp [fill_port_info, not_or]

/-- Witness for C10: the software port `portC` serializes with
`is_virtual = true`, and the hardware USB port `portA`
(`type = hardware ||| usb = 24`) with `is_virtual = false`. -/
theorem C10_is_virtual_witness :
    (fill_port_info portC 0 false).is_virtual = true
    ∧ (fill_port_info portA 0 true).is_virtual = false :=
  ⟨(C10_is_virtual_iff portC 0 false).1.mpr (Or.inl rfl),
   (C10_is_virtual_iff portA 0 true).2.mpr ⟨by decide, by decide⟩⟩
